import Mathlib

/-!
Verification of the subscription-ledger / role-reconciler core of the
Self-defense repository, as a shallow embedding in Lean 4.

Modelling conventions:
* timestamps and durations are `Int` (the `datetime`/`timedelta` arithmetic of
  the source is absolute time plus a duration; the unit is irrelevant to every
  property proved here, so `timedelta(days=d)` is absorbed into the integer
  time scale);
* database tables are association lists keyed by their primary key;
* the external chat-server guild is a record of resolvable members, existing
  role ids and each member's current role list; a role-API call either
  succeeds (updating that state) or raises, which is modelled by an explicit
  failure oracle at the call sites that the source wraps in try/except;
* HTTP responses are a small inductive: `httpError` for a raised
  `HTTPException`, `jsonOk` for a 200 response with a JSON body (the body is
  summarised by a tag string).
-/

/-- HTTP outcome of a webhook handler: a raised `HTTPException` with a status
code, or a normal 200 JSON response. -/
inductive HttpResp where
  | httpError (status : Nat) (detail : String)
  | jsonOk (body : String)
deriving DecidableEq

/-- Status code carried to the provider: FastAPI returns 200 for a plain
dict return value. -/
def HttpResp.statusCode : HttpResp → Nat
  | .httpError s _ => s
  | .jsonOk _ => 200

/-- Update-or-append on an association list keyed by the first component:
the common shape of every keyed UPDATE/INSERT in the embedded tables. -/
def updateAssoc {β : Type} (l : List (Nat × β)) (i : Nat) (b : β) :
    List (Nat × β) :=
  if l.any (fun pr => pr.1 == i) then
    l.map (fun pr => if pr.1 == i then (pr.1, b) else pr)
  else l ++ [(i, b)]

namespace StripeWh

/-! Embedding of src/stripe_webhook.py. -/

def ROLE_VERIFIED : Nat := 1476479538807439404
def ROLE_RECRUIT : Nat := 1476727580387442698
def ROLE_ELITE : Nat := 1475724667493810186
def ROLE_FIGHTER : Nat := 1476504028576743520

def TIER_ROLE_IDS : List Nat := [ROLE_RECRUIT, ROLE_ELITE, ROLE_FIGHTER]

/-- PRICE_MAP: price_id -> (tier, duration in days, role id). -/
def PRICE_MAP : List (String × String × Int × Nat) :=
  [("price_1T50gsB9kGqOyQaKqsChMsDT", ("recruit", 14, ROLE_RECRUIT)),
   ("price_1T50fgB9kGqOyQaKgkZfH2XZ", ("elite", 30, ROLE_ELITE)),
   ("price_1T50dWB9kGqOyQaKddLCSgbC", ("fighter", 60, ROLE_FIGHTER))]

/-- One row of the `subscriptions` table (discord_id is the primary key;
`updated_at` is informational only and omitted). -/
structure SubRow where
  discord_id : Nat
  tier : String
  expires_at : Int
deriving DecidableEq

abbrev Ledger := List SubRow

/-- `SELECT expires_at FROM subscriptions WHERE discord_id=%s` (primary key,
so the first hit is the only hit). -/
def findSub (l : Ledger) (id : Nat) : Option SubRow :=
  l.find? (fun r => r.discord_id == id)

/-- `upsert_subscription(discord_id, tier, add_days)`: read the existing row;
if present, base is `expires_at` when strictly in the future else `now`, and
the row is updated to `(tier, base + delta)`; otherwise a fresh row
`(discord_id, tier, now + delta)` is inserted. Returns the ledger after the
commit together with the computed `new_expires`. -/
def upsert_subscription (l : Ledger) (now : Int) (discord_id : Nat)
    (tier : String) (add_days : Int) : Ledger × Int :=
  match findSub l discord_id with
  | some row =>
      let base := if row.expires_at > now then row.expires_at else now
      let new_expires := base + add_days
      (l.map (fun r =>
        if r.discord_id == discord_id then
          { r with tier := tier, expires_at := new_expires }
        else r), new_expires)
  | none =>
      let new_expires := now + add_days
      (l ++ [⟨discord_id, tier, new_expires⟩], new_expires)

/-- `SELECT discord_id, tier, expires_at FROM subscriptions WHERE expires_at <= now`. -/
def get_expired_subscriptions (l : Ledger) (now : Int) : List SubRow :=
  l.filter (fun r => r.expires_at ≤ now)

/-- `DELETE FROM subscriptions WHERE discord_id=%s`. -/
def clear_subscription (l : Ledger) (discord_id : Nat) : Ledger :=
  l.filter (fun r => !(r.discord_id == discord_id))

/-- The chat-server guild as the role reconciler sees it: which member ids
resolve, which role ids exist, and each member's current role list. -/
structure Guild where
  present : List Nat
  roleIds : List Nat
  memberRoles : List (Nat × List Nat)
deriving DecidableEq

def Guild.rolesOf (g : Guild) (id : Nat) : List Nat :=
  match g.memberRoles.find? (fun p => p.1 == id) with
  | some p => p.2
  | none => []

def Guild.setRoles (g : Guild) (id : Nat) (rs : List Nat) : Guild :=
  { g with memberRoles := updateAssoc g.memberRoles id rs }

/-- A role-API mutation issued against the chat server. -/
inductive RoleCall where
  | add (memberId : Nat) (roles : List Nat)
  | remove (memberId : Nat) (roles : List Nat)
deriving DecidableEq

/-- `set_roles_for_tier(member, tier_role_id)`: add the verified-buyer role if
missing, remove the other tier roles the member holds, add the purchased tier
role if missing. Membership tests read the member snapshot taken when the
member was fetched (`member.roles`), mutations apply to the live guild. -/
def set_roles_for_tier (g : Guild) (id : Nat) (tier_role_id : Nat) :
    Guild × List RoleCall :=
  let roles0 := g.rolesOf id
  let (g1, c1) :=
    if g.roleIds.contains ROLE_VERIFIED && !(roles0.contains ROLE_VERIFIED) then
      (g.setRoles id (roles0 ++ [ROLE_VERIFIED]), [RoleCall.add id [ROLE_VERIFIED]])
    else (g, ([] : List RoleCall))
  let toRemove := TIER_ROLE_IDS.filter (fun rid =>
    !(rid == tier_role_id) && g.roleIds.contains rid && roles0.contains rid)
  let (g2, c2) :=
    if !toRemove.isEmpty then
      (g1.setRoles id ((g1.rolesOf id).filter (fun x => !(toRemove.contains x))),
       [RoleCall.remove id toRemove])
    else (g1, ([] : List RoleCall))
  let (g3, c3) :=
    if g.roleIds.contains tier_role_id && !(roles0.contains tier_role_id) then
      (g2.setRoles id ((g2.rolesOf id) ++ [tier_role_id]), [RoleCall.add id [tier_role_id]])
    else (g2, ([] : List RoleCall))
  (g3, c1 ++ c2 ++ c3)

/-- `remove_all_tier_roles(member)`: remove every configured tier role the
member currently holds (one bulk `remove_roles` call when nonempty). -/
def remove_all_tier_roles (g : Guild) (id : Nat) : Guild × List RoleCall :=
  let roles0 := g.rolesOf id
  let toRemove := TIER_ROLE_IDS.filter (fun rid =>
    g.roleIds.contains rid && roles0.contains rid)
  if !toRemove.isEmpty then
    (g.setRoles id (roles0.filter (fun x => !(toRemove.contains x))),
     [RoleCall.remove id toRemove])
  else (g, [])

end StripeWh

namespace StripeWh

/-! The expiration loop and the webhook endpoint of src/stripe_webhook.py. -/

structure WebState where
  ledger : Ledger
  guild : Guild
deriving DecidableEq

/-- Body of one `expiration_loop` iteration over the pre-fetched expired rows.
`fails id = true` means `remove_all_tier_roles` raises a role-API error for
that member. The try/except sits OUTSIDE the for loop, so a raise ends the
whole tick: the current member's `clear_subscription` and all remaining rows
are not processed. A member that does not resolve (`fetch_member` returns
None) is not touched in the guild but `clear_subscription` still runs. -/
def expirationGo (fails : Nat → Bool) : List SubRow → WebState → WebState
  | [], s => s
  | r :: rest, s =>
    if s.guild.present.contains r.discord_id then
      if fails r.discord_id then s
      else
        let g' := (remove_all_tier_roles s.guild r.discord_id).1
        expirationGo fails rest
          { ledger := clear_subscription s.ledger r.discord_id, guild := g' }
    else
      expirationGo fails rest
        { s with ledger := clear_subscription s.ledger r.discord_id }

/-- One tick of `expiration_loop`: fetch the expired rows once, then process
them in order. -/
def expiration_tick (fails : Nat → Bool) (now : Int) (s : WebState) : WebState :=
  expirationGo fails (get_expired_subscriptions s.ledger now) s

/-- Payload of a verified `checkout.session.completed`-style event as the
handler reads it: the event type, the session metadata's discord_id (None
models an absent/empty value) and the price id recovered from the session's
line items (None models the line-items lookup raising). -/
structure WhEvent where
  type : String
  metadata_discord_id : Option Nat
  line_items_price : Option String
deriving DecidableEq

/-- Outcome of `stripe.Webhook.construct_event`: a verified event, a
ValueError (invalid payload) or a SignatureVerificationError. -/
inductive VerifyResult where
  | ok (e : WhEvent)
  | invalidPayload
  | invalidSignature
deriving DecidableEq

structure WhOutcome where
  resp : HttpResp
  state : WebState
  calls : List RoleCall
deriving DecidableEq

def lookupPrice (pid : String) : Option (String × Int × Nat) :=
  (PRICE_MAP.find? (fun p => p.1 == pid)).map Prod.snd

/-- The `/stripe/webhook` endpoint of src/stripe_webhook.py: verify, filter on
event type, require `metadata.discord_id`, resolve the price id, upsert the
subscription, then assign roles if the member resolves. -/
def stripe_webhook (v : VerifyResult) (now : Int) (s : WebState) : WhOutcome :=
  match v with
  | .invalidPayload => ⟨.httpError 400 "Invalid payload", s, []⟩
  | .invalidSignature => ⟨.httpError 400 "Invalid signature", s, []⟩
  | .ok e =>
    if e.type != "checkout.session.completed" then ⟨.jsonOk "ignored", s, []⟩
    else
      match e.metadata_discord_id with
      | none => ⟨.jsonOk "error Missing metadata.discord_id", s, []⟩
      | some did =>
        match e.line_items_price with
        | none => ⟨.jsonOk "error Could not read line_items/price", s, []⟩
        | some pid =>
          match lookupPrice pid with
          | none => ⟨.jsonOk "ignored Unknown price_id", s, []⟩
          | some (tier, duration_days, role_id) =>
            let up := upsert_subscription s.ledger now did tier duration_days
            if s.guild.present.contains did then
              let gr := set_roles_for_tier s.guild did role_id
              ⟨.jsonOk "received", ⟨up.1, gr.1⟩, gr.2⟩
            else
              ⟨.jsonOk "received warning member not found", ⟨up.1, s.guild⟩, []⟩

end StripeWh

namespace MainPy

/-! Embedding of src/main.py: the payments table, the webhook endpoint and the
role worker. -/

/-- Python truthiness of an optional string: None and the empty string are
falsy. -/
def falsy : Option String → Bool
  | none => true
  | some s => s.isEmpty

/-- ASCII lower-casing of one character, as Python `str.lower()` acts on the
ASCII identifiers this system handles. -/
def lowerChar (c : Char) : Char :=
  if 65 ≤ c.toNat && c.toNat ≤ 90 then Char.ofNat (c.toNat + 32) else c

/-- Python `str.lower()`. -/
def lowerStr (s : String) : String := ⟨s.data.map lowerChar⟩

/-- ASCII whitespace, as Python `str.strip()` removes it. -/
def isPySpace (c : Char) : Bool := c.toNat == 32 || (9 ≤ c.toNat && c.toNat ≤ 13)

/-- Python `str.strip()`. -/
def pyStrip (s : String) : String :=
  ⟨((s.data.dropWhile isPySpace).reverse.dropWhile isPySpace).reverse⟩

/-- Python `str.lower().strip()`. -/
def lowerStrip (s : String) : String := pyStrip (lowerStr s)

/-- Python `int(...)` on the decimal id strings this system produces. -/
def strToNat (s : String) : Nat :=
  s.data.foldl (fun acc c => acc * 10 + (c.toNat - 48)) 0

/-- One row of the `payments` table (`session_id` carries a UNIQUE
constraint; `id` is the BIGSERIAL primary key). -/
structure PaymentRow where
  id : Nat
  session_id : String
  discord_id : String
  tier : String
  amount_total : Option Int
  currency : Option String
  status : String
  processed : Bool
  processed_at : Option Int
  created_at : Int
deriving DecidableEq

/-- `insert_paid_payment`: INSERT with `processed = FALSE`;
`ON CONFLICT (session_id) DO UPDATE SET status = EXCLUDED.status`. `next_id`
is the serial id a fresh row receives and `now` its `created_at` default. -/
def insert_paid_payment (p : List PaymentRow) (next_id : Nat) (now : Int)
    (session_id discord_id tier : String) (amount_total : Option Int)
    (currency : Option String) (status : String) : List PaymentRow :=
  if p.any (fun r => r.session_id == session_id) then
    p.map (fun r =>
      if r.session_id == session_id then { r with status := status } else r)
  else
    p ++ [⟨next_id, session_id, discord_id, tier, amount_total, currency,
           status, false, none, now⟩]

def PAID_STATUSES : List String := ["paid", "complete", "succeeded", "completed"]

/-- `fetch_unprocessed`: unprocessed rows whose status is a paid-like value,
ordered by `created_at`, limited. -/
def fetch_unprocessed (p : List PaymentRow) (limit : Nat) : List PaymentRow :=
  ((p.filter (fun r => !r.processed && PAID_STATUSES.contains r.status)).mergeSort
    (fun a b => decide (a.created_at ≤ b.created_at))).take limit

/-- `mark_processed`: set `processed = TRUE, processed_at = NOW()` by row id. -/
def mark_processed (p : List PaymentRow) (payment_id : Nat) (now : Int) :
    List PaymentRow :=
  p.map (fun r =>
    if r.id == payment_id then { r with processed := true, processed_at := some now }
    else r)

/-- `role_id_for_tier`: normalise the tier, map it to its ROLE_ID_* env var;
`env` yields the parsed integer value of a set, numeric env var (the
`isdigit` check is folded into the `Option Nat`). -/
def role_id_for_tier (env : String → Option Nat) (tier : String) : Option Nat :=
  let t := lowerStrip tier
  if t == "civilian" then env "ROLE_ID_CIVILIAN"
  else if t == "fighter" then env "ROLE_ID_FIGHTER"
  else if t == "elite" then env "ROLE_ID_ELITE"
  else none

/-- A verified event as main.py's webhook reads it. Every business field is
optional because the handler itself guards each one. -/
structure MainEvent where
  type : String
  session_id : Option String
  payment_status : Option String
  amount_total : Option Int
  currency : Option String
  metadata_discord_id : Option String
  metadata_tier : Option String
deriving DecidableEq

/-- The `/stripe/webhook` endpoint of src/main.py. `whsecPresent` and
`sigHeaderPresent` model the two config/header guards that run before
verification; `verified` is the outcome of `stripe.Webhook.construct_event`
(`none` = it raised, caught and turned into a 400). On a well-formed
`checkout.session.completed` the handler writes a row via
`insert_paid_payment`; every other path leaves the table alone. -/
def main_stripe_webhook (whsecPresent sigHeaderPresent : Bool)
    (verified : Option MainEvent) (next_id : Nat) (now : Int)
    (p : List PaymentRow) : HttpResp × List PaymentRow :=
  if !whsecPresent then (.httpError 500 "STRIPE_WEBHOOK_SECRET missing", p)
  else if !sigHeaderPresent then
    (.httpError 400 "Missing stripe-signature header", p)
  else
    match verified with
    | none => (.httpError 400 "Invalid signature", p)
    | some e =>
      if e.type == "checkout.session.completed" then
        if falsy e.session_id || falsy e.metadata_discord_id || falsy e.metadata_tier then
          (.jsonOk "received ignored", p)
        else
          let sid := e.session_id.getD ""
          let did := e.metadata_discord_id.getD ""
          let tier := lowerStrip (e.metadata_tier.getD "")
          let ps0 :=
            match e.payment_status with
            | some v => if v.isEmpty then "completed" else v
            | none => "completed"
          let status := if lowerStr ps0 == "paid" then "paid" else lowerStr ps0
          (.jsonOk "received",
           insert_paid_payment p next_id now sid did tier e.amount_total e.currency status)
      else (.jsonOk "received", p)

/-- `RoleWorker.process_row`: resolve the tier's role id (no mapping: mark
processed to avoid looping), require guild, member and role to resolve
(otherwise leave the row untouched for a later poll), and if the member
already holds the role, mark processed without an add-role call; otherwise
add the role then mark processed. `addFails` models `member.add_roles`
raising, which is caught and leaves the row unprocessed for retry. The calls
list records the role mutations issued against the chat server. -/
def process_row (env : String → Option Nat) (g : StripeWh.Guild)
    (guildAccessible : Bool) (addFails : Bool) (now : Int)
    (p : List PaymentRow) (row : PaymentRow) :
    List PaymentRow × StripeWh.Guild × List StripeWh.RoleCall :=
  let discord_id := strToNat row.discord_id
  match role_id_for_tier env row.tier with
  | none => (mark_processed p row.id now, g, [])
  | some role_id =>
    if !guildAccessible then (p, g, [])
    else if !(g.present.contains discord_id) then (p, g, [])
    else if !(g.roleIds.contains role_id) then (p, g, [])
    else if (g.rolesOf discord_id).contains role_id then
      (mark_processed p row.id now, g, [])
    else if addFails then (p, g, [])
    else
      (mark_processed p row.id now,
       g.setRoles discord_id ((g.rolesOf discord_id) ++ [role_id]),
       [StripeWh.RoleCall.add discord_id [role_id]])

end MainPy

namespace TaskSync

/-! Embedding of src/tasks_runner.py (`sync_roles`). -/

def ROLE_MAP : List (String × Nat) :=
  [("recruit", 1426996503880138815),
   ("elite", 1475724667493810186),
   ("fighter", 1476504028576743520)]

def ROLE_VERIFIED : Nat := 1476479538807439404

/-- One `sync_roles` per-row body. Returns `none` when the body raises and
kills the task: a `ROLE_MAP` role id missing from the guild makes
`remove_roles(None, ...)` raise, an unknown tier raises KeyError on
`ROLE_MAP[tier]`, and a missing verified role makes `add_roles(None)` raise
(there is no try/except anywhere in `sync_roles`). Membership tests read the
member snapshot taken by `get_member`. -/
def syncStep (now : Int) (g : StripeWh.Guild) (r : StripeWh.SubRow) :
    Option StripeWh.Guild :=
  if !(g.present.contains r.discord_id) then some g
  else
    let expired := decide (r.expires_at < now)
    if !((ROLE_MAP.map Prod.snd).all (fun rid => g.roleIds.contains rid)) then none
    else
      let roles0 := g.rolesOf r.discord_id
      let tierIds := ROLE_MAP.map Prod.snd
      let g1 := g.setRoles r.discord_id (roles0.filter (fun x => !(tierIds.contains x)))
      if expired then some g1
      else
        match ROLE_MAP.find? (fun pr => pr.1 == r.tier) with
        | none => none
        | some pr =>
          let g2 := g1.setRoles r.discord_id ((g1.rolesOf r.discord_id) ++ [pr.2])
          if !(roles0.contains ROLE_VERIFIED) then
            if !(g.roleIds.contains ROLE_VERIFIED) then none
            else some (g2.setRoles r.discord_id
              ((g2.rolesOf r.discord_id) ++ [ROLE_VERIFIED]))
          else some g2

/-- Fold of `syncStep` over the fetched rows; `none` means the tick died on an
uncaught exception part-way through. -/
def syncGo (now : Int) : List StripeWh.SubRow → StripeWh.Guild → Option StripeWh.Guild
  | [], g => some g
  | r :: rest, g =>
    match syncStep now g r with
    | none => none
    | some g1 => syncGo now rest g1

/-- One iteration of the `sync_roles` while-loop: fetch all subscription rows,
then reconcile each member in order. -/
def sync_roles_tick (now : Int) (l : StripeWh.Ledger) (g : StripeWh.Guild) :
    Option StripeWh.Guild :=
  syncGo now l g

end TaskSync

namespace TasksUp

/-! Embedding of src/Tasks_runner.py (`expiry_sweep`) with the pieces of
src/dp.py (`set_tier`, `get_expiring`) and src/Commands.py
(`apply_tier_roles`) it calls. Roles are identified by name here, as in
src/Config.py. -/

def ROLE_MEMBER : String := "Member"

def TIER_ROLE_MAP : List (String × String) :=
  [("free", ROLE_MEMBER), ("premium", "Premium Member"), ("elite", "PT")]

/-- `set(TIER_ROLE_MAP.values())`. -/
def TIER_ROLE_NAMES : List String := [ROLE_MEMBER, "Premium Member", "PT"]

/-- The guild with roles addressed by name. -/
structure NGuild where
  present : List Nat
  roleNames : List String
  memberRoles : List (Nat × List String)
deriving DecidableEq

def NGuild.rolesOf (g : NGuild) (id : Nat) : List String :=
  match g.memberRoles.find? (fun pr => pr.1 == id) with
  | some pr => pr.2
  | none => []

def NGuild.setRoles (g : NGuild) (id : Nat) (rs : List String) : NGuild :=
  { g with memberRoles := updateAssoc g.memberRoles id rs }

/-- One row of dp.py's `subscriptions` table (`expires_at` is nullable). -/
structure SweepRow where
  discord_id : Nat
  tier : String
  expires_at : Option Int
deriving DecidableEq

/-- The state `expiry_sweep` touches: the `users` table (discord_id -> tier),
the `subscriptions` table and the guild. Direct messages are fire-and-forget
external I/O swallowed by their own try/except and are outside this state. -/
structure TState where
  users : List (Nat × String)
  subs : List SweepRow
  guild : NGuild
deriving DecidableEq

def lookupUser (us : List (Nat × String)) (id : Nat) : Option String :=
  (us.find? (fun pr => pr.1 == id)).map Prod.snd

/-- dp.py `set_tier`: upsert into `users` and upsert the tier into
`subscriptions` (a fresh subscriptions row gets a NULL expiry). -/
def set_tier (s : TState) (id : Nat) (t : String) : TState :=
  { s with
    users := updateAssoc s.users id t,
    subs :=
      if s.subs.any (fun r => r.discord_id == id) then
        s.subs.map (fun r => if r.discord_id == id then { r with tier := t } else r)
      else s.subs ++ [⟨id, t, none⟩] }

/-- Commands.py `apply_tier_roles`: remove every tier role name the member
holds (only names that resolve in the guild), then add the role mapped to the
tier (`ROLE_MEMBER` when the tier is unmapped) if it resolves. -/
def apply_tier_roles (g : NGuild) (id : Nat) (tier : String) : NGuild :=
  let roles0 := g.rolesOf id
  let g1 := g.setRoles id (roles0.filter (fun n =>
    !(TIER_ROLE_NAMES.contains n && g.roleNames.contains n)))
  let target := ((TIER_ROLE_MAP.find? (fun pr => pr.1 == tier)).map Prod.snd).getD ROLE_MEMBER
  if g.roleNames.contains target then g1.setRoles id ((g1.rolesOf id) ++ [target])
  else g1

/-- dp.py `get_expiring`: all subscription rows with a non-NULL expiry. -/
def get_expiring (subs : List SweepRow) : List SweepRow :=
  subs.filter (fun r => r.expires_at.isSome)

/-- One `expiry_sweep` per-row body. The whole body sits inside a per-member
try/except whose handler is `continue`, so a role-API failure (modelled by
`fails`, raised inside `apply_tier_roles` after `db.set_tier` already ran) is
caught and only skips this member. A member that does not resolve is skipped.
The not-yet-expired reminder branch only sends a DM, which is outside the
modelled state. -/
def sweepStep (fails : Nat → Bool) (now : Int) (s : TState) (r : SweepRow) : TState :=
  match r.expires_at with
  | none => s
  | some exp =>
    if !(s.guild.present.contains r.discord_id) then s
    else if decide ((exp - now : Int) ≤ 0) then
      let s1 := set_tier s r.discord_id "free"
      if fails r.discord_id then s1
      else { s1 with guild := apply_tier_roles s1.guild r.discord_id "free" }
    else s

/-- One tick of `expiry_sweep`: fetch the rows once, then process each in
order; no failure can abort the fold. -/
def expiry_sweep (fails : Nat → Bool) (now : Int) (s : TState) : TState :=
  (get_expiring s.subs).foldl (sweepStep fails now) s

end TasksUp

/-! ### Claims about the renewal computation (C2, C6) -/

/-- Generic helper: `find?` skips a prefix in which nothing matches. -/
theorem find?_append_of_none {α : Type} (p : α → Bool) (l l2 : List α)
    (h : l.find? p = none) : (l ++ l2).find? p = l2.find? p := by
  induction l with
  | nil => rfl
  | cons a l ih =>
    by_cases ha : p a
    · rw [List.find?_cons_of_pos _ ha] at h
      exact absurd h (by simp)
    · rw [List.find?_cons_of_neg _ ha] at h
      rw [List.cons_append, List.find?_cons_of_neg _ ha]
      exact ih h

/-- Helper: mapping a key-preserving update commutes with `findSub`. -/
theorem findSub_map_update (l : StripeWh.Ledger) (id : Nat)
    (f : StripeWh.SubRow → StripeWh.SubRow)
    (hf : ∀ r, (f r).discord_id = r.discord_id) :
    StripeWh.findSub (l.map f) id = (StripeWh.findSub l id).map f := by
  induction l with
  | nil => rfl
  | cons a l ih =>
    by_cases ha : (a.discord_id == id) = true
    · have ha' : ((fun r : StripeWh.SubRow => r.discord_id == id) (f a)) = true := by
        simpa [hf a] using ha
      simp only [StripeWh.findSub, List.map_cons] at *
      rw [List.find?_cons_of_pos (p := fun r : StripeWh.SubRow => r.discord_id == id) _ ha',
        List.find?_cons_of_pos (p := fun r : StripeWh.SubRow => r.discord_id == id) _ ha]
      rfl
    · have ha' : ¬ ((fun r : StripeWh.SubRow => r.discord_id == id) (f a)) = true := by
        simpa [hf a] using ha
      simp only [StripeWh.findSub, List.map_cons] at *
      rw [List.find?_cons_of_neg (p := fun r : StripeWh.SubRow => r.discord_id == id) _ ha',
        List.find?_cons_of_neg (p := fun r : StripeWh.SubRow => r.discord_id == id) _ ha]
      exact ih

/-- Claim C2: `upsert_subscription` computes the new expiry with a strict
comparison: with an existing row whose `expires_at` is strictly after `now`
the result is `expires_at + d`; with no row, or a row whose `expires_at` is at
or before `now` (the boundary counts as expired), the result is `now + d`;
and the returned value is exactly the expiry stored in the ledger. -/
theorem upsert_subscription_expiry_rule (l : StripeWh.Ledger) (now d : Int)
    (id : Nat) (t : String) :
    (∀ r, StripeWh.findSub l id = some r → r.expires_at > now →
      (StripeWh.upsert_subscription l now id t d).2 = r.expires_at + d) ∧
    (∀ r, StripeWh.findSub l id = some r → r.expires_at ≤ now →
      (StripeWh.upsert_subscription l now id t d).2 = now + d) ∧
    (StripeWh.findSub l id = none →
      (StripeWh.upsert_subscription l now id t d).2 = now + d) ∧
    (∀ r', StripeWh.findSub (StripeWh.upsert_subscription l now id t d).1 id = some r' →
      r'.expires_at = (StripeWh.upsert_subscription l now id t d).2) := by
  refine ⟨?_, ?_, ?_, ?_⟩
  · intro r hr hgt
    simp only [StripeWh.upsert_subscription, hr, if_pos hgt]
  · intro r hr hle
    have : ¬ r.expires_at > now := not_lt.mpr hle
    simp only [StripeWh.upsert_subscription, hr, if_neg this]
  · intro hnone
    simp only [StripeWh.upsert_subscription, hnone]
  · intro r' hr'
    rcases hfind : StripeWh.findSub l id with _ | r
    · simp only [StripeWh.upsert_subscription, hfind] at hr' ⊢
      rw [StripeWh.findSub, find?_append_of_none _ l _ hfind] at hr'
      by_cases hid : (id == id) = true
      · rw [List.find?_cons_of_pos _ (by exact hid)] at hr'
        cases hr'
        rfl
      · exact absurd (by simp : (id == id) = true) hid
    · simp only [StripeWh.upsert_subscription, hfind] at hr' ⊢
      have hmap := findSub_map_update l id
        (fun rr =>
          if rr.discord_id == id then
            { rr with tier := t, expires_at := (if r.expires_at > now then r.expires_at else now) + d }
          else rr)
        (by
          intro rr
          by_cases h : (rr.discord_id == id) = true <;> simp [h])
      rw [hmap, hfind] at hr'
      have hrk : (r.discord_id == id) = true :=
        List.find?_some (p := fun rr : StripeWh.SubRow => rr.discord_id == id)
          (by simpa [StripeWh.findSub] using hfind)
      simp only [Option.map_some', hrk, if_pos rfl] at hr'
      cases hr'
      rfl

/-- Concrete instance of the C2 theorem: an active row (expiry 50, now 10)
renewed for 14 yields 64. -/
theorem upsert_subscription_expiry_rule_witness :
    (StripeWh.upsert_subscription [⟨1, "elite", 50⟩] 10 1 "recruit" 14).2 = 50 + 14 :=
  (upsert_subscription_expiry_rule [⟨1, "elite", 50⟩] 10 14 1 "recruit").1
    ⟨1, "elite", 50⟩ rfl (by decide)

/-- Claim C6: a successful payment overwrites the stored tier unconditionally;
when the member renews at a different tier while still active, the stored row
switches to the new tier immediately and the new expiry is the old expiry plus
the new plan's duration, regardless of the old tier. -/
theorem upsert_subscription_overwrites_tier (l : StripeWh.Ledger) (now d : Int)
    (id : Nat) (t_new : String) (r : StripeWh.SubRow)
    (hf : StripeWh.findSub l id = some r) (hactive : r.expires_at > now) :
    StripeWh.findSub (StripeWh.upsert_subscription l now id t_new d).1 id
      = some ⟨r.discord_id, t_new, r.expires_at + d⟩ ∧
    (StripeWh.upsert_subscription l now id t_new d).2 = r.expires_at + d := by
  have hrk : (r.discord_id == id) = true :=
    List.find?_some (p := fun rr : StripeWh.SubRow => rr.discord_id == id)
      (by simpa [StripeWh.findSub] using hf)
  constructor
  · simp only [StripeWh.upsert_subscription, hf]
    have hmap := findSub_map_update l id
      (fun rr =>
        if rr.discord_id == id then
          { rr with tier := t_new, expires_at := (if r.expires_at > now then r.expires_at else now) + d }
        else rr)
      (by
        intro rr
        by_cases h : (rr.discord_id == id) = true <;> simp [h])
    rw [hmap, hf]
    have hid : r.discord_id = id := by simpa using hrk
    simp [hid, if_pos hactive]
  · simp only [StripeWh.upsert_subscription, hf, if_pos hactive]

/-- Concrete instance of the C6 theorem: an active elite row (expiry 50)
renewed as recruit for 14 at now 10 becomes (recruit, 64). -/
theorem upsert_subscription_overwrites_tier_witness :
    StripeWh.findSub
      (StripeWh.upsert_subscription [⟨1, "elite", 50⟩] 10 1 "recruit" 14).1 1
      = some ⟨1, "recruit", 50 + 14⟩ :=
  (upsert_subscription_overwrites_tier [⟨1, "elite", 50⟩] 10 14 1 "recruit"
    ⟨1, "elite", 50⟩ rfl (by decide)).1

/-! ### Claims about the expiration loop (C3, C4) -/

/-- Helper: deleting one member's row does not change another member's row. -/
theorem findSub_clear_other (l : StripeWh.Ledger) (i id : Nat) (hne : ¬ id = i) :
    StripeWh.findSub (StripeWh.clear_subscription l i) id = StripeWh.findSub l id := by
  induction l with
  | nil => rfl
  | cons a l ih =>
    by_cases ha : (a.discord_id == i) = true
    · have had : a.discord_id = i := by simpa using ha
      have ha2 : ¬ (a.discord_id == id) = true := by
        simp [had]
        intro hcon
        exact hne hcon.symm
      simp only [StripeWh.clear_subscription, StripeWh.findSub] at *
      rw [List.filter_cons_of_neg (by simpa using ha),
        List.find?_cons_of_neg (p := fun rr : StripeWh.SubRow => rr.discord_id == id) _ ha2]
      exact ih
    · simp only [StripeWh.clear_subscription, StripeWh.findSub] at *
      rw [List.filter_cons_of_pos (by simpa using ha)]
      by_cases ha2 : (a.discord_id == id) = true
      · rw [List.find?_cons_of_pos (p := fun rr : StripeWh.SubRow => rr.discord_id == id) _ ha2,
          List.find?_cons_of_pos (p := fun rr : StripeWh.SubRow => rr.discord_id == id) _ ha2]
      · rw [List.find?_cons_of_neg (p := fun rr : StripeWh.SubRow => rr.discord_id == id) _ ha2,
          List.find?_cons_of_neg (p := fun rr : StripeWh.SubRow => rr.discord_id == id) _ ha2]
        exact ih

/-- Helper: after deleting a member's row, that member has no row. -/
theorem findSub_clear_self (l : StripeWh.Ledger) (i : Nat) :
    StripeWh.findSub (StripeWh.clear_subscription l i) i = none := by
  induction l with
  | nil => rfl
  | cons a l ih =>
    by_cases ha : (a.discord_id == i) = true
    · simp only [StripeWh.clear_subscription, StripeWh.findSub] at *
      rw [List.filter_cons_of_neg (by simpa using ha)]
      exact ih
    · simp only [StripeWh.clear_subscription, StripeWh.findSub] at *
      rw [List.filter_cons_of_pos (by simpa using ha),
        List.find?_cons_of_neg (p := fun rr : StripeWh.SubRow => rr.discord_id == i) _ ha]
      exact ih

/-- Helper: role removal never changes which members resolve in the guild. -/
theorem remove_all_tier_roles_present (g : StripeWh.Guild) (i : Nat) :
    (StripeWh.remove_all_tier_roles g i).1.present = g.present := by
  rw [StripeWh.remove_all_tier_roles]
  by_cases h : !(List.filter (fun rid =>
      g.roleIds.contains rid && (g.rolesOf i).contains rid) StripeWh.TIER_ROLE_IDS).isEmpty
  · simp only [if_pos h]
    rfl
  · simp only [if_neg h]

/-- Helper: once a member has no ledger row, the rest of the tick never
creates one (the loop only deletes rows). -/
theorem expirationGo_none_preserved (fails : Nat → Bool) (rows : List StripeWh.SubRow)
    (s : StripeWh.WebState) (id : Nat)
    (h : StripeWh.findSub s.ledger id = none) :
    StripeWh.findSub (StripeWh.expirationGo fails rows s).ledger id = none := by
  induction rows generalizing s with
  | nil => exact h
  | cons r rest ih =>
    rw [StripeWh.expirationGo]
    by_cases hp : s.guild.present.contains r.discord_id = true
    · rw [if_pos hp]
      by_cases hfl : fails r.discord_id = true
      · rw [if_pos hfl]
        exact h
      · rw [if_neg hfl]
        apply ih
        by_cases hii : id = r.discord_id
        · subst hii
          exact findSub_clear_self _ _
        · rw [findSub_clear_other _ _ _ hii]
          exact h
    · rw [if_neg hp]
      apply ih
      by_cases hii : id = r.discord_id
      · subst hii
        exact findSub_clear_self _ _
      · rw [findSub_clear_other _ _ _ hii]
        exact h

/-- Helper: a member whose role-removal call raises keeps its ledger row
through the rest of the tick (the raise aborts the tick before the delete). -/
theorem expirationGo_keeps_failed (fails : Nat → Bool) (rows : List StripeWh.SubRow)
    (s : StripeWh.WebState) (id : Nat) (r : StripeWh.SubRow)
    (hf : StripeWh.findSub s.ledger id = some r)
    (hpres : s.guild.present.contains id = true)
    (hfl : fails id = true) :
    StripeWh.findSub (StripeWh.expirationGo fails rows s).ledger id = some r := by
  induction rows generalizing s with
  | nil => exact hf
  | cons q rest ih =>
    rw [StripeWh.expirationGo]
    by_cases hii : q.discord_id = id
    · rw [hii, if_pos hpres, if_pos hfl]
      exact hf
    · by_cases hp : s.guild.present.contains q.discord_id = true
      · rw [if_pos hp]
        by_cases hfl' : fails q.discord_id = true
        · rw [if_pos hfl']
          exact hf
        · rw [if_neg hfl']
          apply ih
          · rw [findSub_clear_other _ _ _ (fun hcon => hii hcon.symm)]
            exact hf
          · rw [remove_all_tier_roles_present]
            exact hpres
      · rw [if_neg hp]
        apply ih
        · rw [findSub_clear_other _ _ _ (fun hcon => hii hcon.symm)]
          exact hf
        · exact hpres

/-- Helper: with no failures, an expired member that does not resolve in the
guild still gets its row deleted once its row is reached. -/
theorem expirationGo_deletes_unresolved (fails : Nat → Bool) (rows : List StripeWh.SubRow)
    (s : StripeWh.WebState) (id : Nat)
    (hnofail : ∀ i, fails i = false)
    (hmem : ∃ r ∈ rows, r.discord_id = id) :
    StripeWh.findSub (StripeWh.expirationGo fails rows s).ledger id = none := by
  induction rows generalizing s with
  | nil =>
    rcases hmem with ⟨r, hr, _⟩
    exact absurd hr (List.not_mem_nil r)
  | cons q rest ih =>
    rw [StripeWh.expirationGo]
    rcases hmem with ⟨r, hr, hrid⟩
    rcases List.mem_cons.mp hr with hhead | htail
    · subst hhead
      by_cases hp : s.guild.present.contains r.discord_id = true
      · rw [if_pos hp, hnofail r.discord_id]
        simp only [Bool.false_eq_true, if_false]
        apply expirationGo_none_preserved
        rw [hrid]
        exact findSub_clear_self _ _
      · rw [if_neg hp]
        apply expirationGo_none_preserved
        rw [hrid]
        exact findSub_clear_self _ _
    · by_cases hp : s.guild.present.contains q.discord_id = true
      · rw [if_pos hp, hnofail q.discord_id]
        simp only [Bool.false_eq_true, if_false]
        exact ih _ ⟨r, htail, hrid⟩
      · rw [if_neg hp]
        exact ih _ ⟨r, htail, hrid⟩

/-- Claim C4 (amended): the tick deletes a ledger row after the revocation
attempt regardless of whether the member resolved. Precisely: (a) a member
whose role-removal call raises keeps its row (the raise aborts the tick before
`clear_subscription`, so the next tick retries); but (b) with no role-API
failures, an expired member that cannot be resolved in the guild has its row
deleted anyway, with no revocation having happened — there is no retry for the
member-not-found case. -/
theorem expiration_tick_retention_rule (fails : Nat → Bool) (now : Int)
    (s : StripeWh.WebState) (id : Nat) (r : StripeWh.SubRow)
    (hf : StripeWh.findSub s.ledger id = some r) :
    (s.guild.present.contains id = true → fails id = true →
      StripeWh.findSub (StripeWh.expiration_tick fails now s).ledger id = some r) ∧
    ((∀ i, fails i = false) → s.guild.present.contains id = false →
      r.expires_at ≤ now →
      StripeWh.findSub (StripeWh.expiration_tick fails now s).ledger id = none) := by
  constructor
  · intro hpres hfl
    exact expirationGo_keeps_failed fails _ s id r hf hpres hfl
  · intro hnofail hpres hexp
    apply expirationGo_deletes_unresolved fails _ s id hnofail
    refine ⟨r, ?_, ?_⟩
    · rw [StripeWh.get_expired_subscriptions]
      rw [List.mem_filter]
      refine ⟨List.mem_of_find?_eq_some (by simpa [StripeWh.findSub] using hf), by simpa using hexp⟩
    · have := List.find?_some (p := fun rr : StripeWh.SubRow => rr.discord_id == id)
        (by simpa [StripeWh.findSub] using hf)
      simpa using this

/-- Concrete instance of the C4 amended theorem, part (a): member 3 resolves,
its removal call raises, its expired row survives the tick. -/
theorem expiration_tick_retention_rule_witness :
    StripeWh.findSub
      (StripeWh.expiration_tick (fun i => i == 3) 10
        ⟨[⟨3, "elite", 5⟩], ⟨[3], [], []⟩⟩).ledger 3 = some ⟨3, "elite", 5⟩ :=
  (expiration_tick_retention_rule (fun i => i == 3) 10
    ⟨[⟨3, "elite", 5⟩], ⟨[3], [], []⟩⟩ 3 ⟨3, "elite", 5⟩ rfl).1 (by decide) (by decide)

/-- Claim C4 counterexample: member 2 has an expired row but does not resolve
in the guild (member left). The claim says the row is retained so the next
tick retries; the code deletes it anyway (`clear_subscription` runs outside
the `if member:` guard), with no revocation having succeeded. -/
theorem expiration_tick_deletes_when_member_missing :
    StripeWh.findSub
      (StripeWh.expiration_tick (fun _ => false) 10
        ⟨[⟨2, "elite", 5⟩], ⟨[], [], []⟩⟩).ledger 2 = none := by
  decide

/-- Claim C3 counterexample: members 1 and 2 both have expired rows and both
resolve; member 1's role-removal call raises. Because the try/except wraps the
whole for loop, the tick aborts: member 2's roles are untouched and its row is
not deleted, even though with no failure the same tick would clear both. So a
single member's role-API failure does abort processing of the remaining
members in the same tick. -/
theorem expiration_tick_failure_aborts_tick :
    (StripeWh.expiration_tick (fun i => i == 1) 5
        ⟨[⟨1, "elite", 0⟩, ⟨2, "elite", 0⟩],
         ⟨[1, 2], [StripeWh.ROLE_ELITE], [(1, [StripeWh.ROLE_ELITE]), (2, [StripeWh.ROLE_ELITE])]⟩⟩)
      = ⟨[⟨1, "elite", 0⟩, ⟨2, "elite", 0⟩],
         ⟨[1, 2], [StripeWh.ROLE_ELITE], [(1, [StripeWh.ROLE_ELITE]), (2, [StripeWh.ROLE_ELITE])]⟩⟩ ∧
    (StripeWh.expiration_tick (fun _ => false) 5
        ⟨[⟨1, "elite", 0⟩, ⟨2, "elite", 0⟩],
         ⟨[1, 2], [StripeWh.ROLE_ELITE], [(1, [StripeWh.ROLE_ELITE]), (2, [StripeWh.ROLE_ELITE])]⟩⟩).guild.rolesOf 2
      = [] := by
  constructor
  · rfl
  · rfl

/-! ### Claims about the webhook intake (C7, C8, C9, C1) -/

/-- Claim C7: a checkout-completed event whose metadata lacks the member
identity (stripe_webhook.py) or the member identity / tier (main.py) is
acknowledged with a 200, performs zero ledger/payments writes and zero
role-API calls. -/
theorem malformed_checkout_event_no_writes_no_calls :
    (∀ (e : StripeWh.WhEvent) (now : Int) (s : StripeWh.WebState),
      e.type = "checkout.session.completed" → e.metadata_discord_id = none →
      (StripeWh.stripe_webhook (.ok e) now s).state = s ∧
      (StripeWh.stripe_webhook (.ok e) now s).calls = [] ∧
      ((StripeWh.stripe_webhook (.ok e) now s).resp).statusCode = 200) ∧
    (∀ (e : MainPy.MainEvent) (nid : Nat) (now : Int) (p : List MainPy.PaymentRow),
      e.type = "checkout.session.completed" →
      (MainPy.falsy e.metadata_discord_id = true ∨ MainPy.falsy e.metadata_tier = true) →
      (MainPy.main_stripe_webhook true true (some e) nid now p).2 = p ∧
      ((MainPy.main_stripe_webhook true true (some e) nid now p).1).statusCode = 200) := by
  constructor
  · intro e now s htype hmeta
    refine ⟨?_, ?_, ?_⟩ <;>
      simp [StripeWh.stripe_webhook, htype, hmeta, HttpResp.statusCode]
  · intro e nid now p htype hor
    have hcond : (MainPy.falsy e.session_id || MainPy.falsy e.metadata_discord_id
        || MainPy.falsy e.metadata_tier) = true := by
      rcases hor with h1 | h1 <;> simp [h1]
    refine ⟨?_, ?_⟩ <;>
      simp [MainPy.main_stripe_webhook, htype, hcond, HttpResp.statusCode]

/-- Concrete instance of the C7 theorem: a checkout event with no discord_id
in metadata leaves the single-row state untouched, with no calls, status 200. -/
theorem malformed_checkout_event_no_writes_no_calls_witness :
    (StripeWh.stripe_webhook
      (.ok ⟨"checkout.session.completed", none, some "price_1T50gsB9kGqOyQaKqsChMsDT"⟩)
      0 ⟨[⟨1, "elite", 50⟩], ⟨[1], [], []⟩⟩).state
      = ⟨[⟨1, "elite", 50⟩], ⟨[1], [], []⟩⟩ :=
  (malformed_checkout_event_no_writes_no_calls.1
    ⟨"checkout.session.completed", none, some "price_1T50gsB9kGqOyQaKqsChMsDT"⟩
    0 ⟨[⟨1, "elite", 50⟩], ⟨[1], [], []⟩⟩ rfl rfl).1

/-- Claim C8: a request that fails signature verification (or arrives without
the signature header) is answered with a 400 and mutates nothing: the
subscriptions/payments tables are returned unchanged and no role call is
issued. -/
theorem invalid_signature_rejected_without_mutation :
    (∀ (now : Int) (s : StripeWh.WebState),
      StripeWh.stripe_webhook .invalidSignature now s
        = ⟨.httpError 400 "Invalid signature", s, []⟩ ∧
      StripeWh.stripe_webhook .invalidPayload now s
        = ⟨.httpError 400 "Invalid payload", s, []⟩) ∧
    (∀ (v : Option MainPy.MainEvent) (nid : Nat) (now : Int) (p : List MainPy.PaymentRow),
      MainPy.main_stripe_webhook true true none nid now p
        = (.httpError 400 "Invalid signature", p) ∧
      MainPy.main_stripe_webhook true false v nid now p
        = (.httpError 400 "Missing stripe-signature header", p)) :=
  ⟨fun _ _ => ⟨rfl, rfl⟩, fun _ _ _ _ => ⟨rfl, rfl⟩⟩

/-- Claim C9: on a conflicting `session_id` the insert updates only the
`status` column: the resulting table is exactly the old table with the
matching row's status replaced, and row-by-row every other column (id,
session_id, discord_id, tier, amount_total, currency, processed,
processed_at, created_at) is untouched — in particular `processed` is never
reset to false by a replay. -/
theorem insert_paid_payment_conflict_updates_only_status
    (p : List MainPy.PaymentRow) (nid : Nat) (now : Int)
    (sid did tier : String) (amt : Option Int) (cur : Option String) (st : String)
    (h : p.any (fun r => r.session_id == sid) = true) :
    MainPy.insert_paid_payment p nid now sid did tier amt cur st
      = p.map (fun r => if r.session_id == sid then { r with status := st } else r) ∧
    (MainPy.insert_paid_payment p nid now sid did tier amt cur st).map
        (fun r => (r.id, r.session_id, r.discord_id, r.tier, r.amount_total,
          r.currency, r.processed, r.processed_at, r.created_at))
      = p.map (fun r => (r.id, r.session_id, r.discord_id, r.tier, r.amount_total,
          r.currency, r.processed, r.processed_at, r.created_at)) := by
  have h1 : MainPy.insert_paid_payment p nid now sid did tier amt cur st
      = p.map (fun r => if r.session_id == sid then { r with status := st } else r) := by
    simp [MainPy.insert_paid_payment, h]
  refine ⟨h1, ?_⟩
  rw [h1, List.map_map]
  apply List.map_congr_left
  intro r _
  by_cases hs : r.session_id = sid <;> simp [hs]

/-- Concrete instance of the C9 theorem: replaying a session keeps
`processed = true` and changes only the status column. -/
theorem insert_paid_payment_conflict_updates_only_status_witness :
    MainPy.insert_paid_payment
        [⟨1, "cs_1", "5", "elite", none, none, "paid", true, some 3, 0⟩]
        2 9 "cs_1" "5" "elite" none none "complete"
      = [⟨1, "cs_1", "5", "elite", none, none, "complete", true, some 3, 0⟩] := by
  have := (insert_paid_payment_conflict_updates_only_status
    [⟨1, "cs_1", "5", "elite", none, none, "paid", true, some 3, 0⟩]
    2 9 "cs_1" "5" "elite" none none "complete" (by decide)).1
  rw [this]
  rfl

/-- Claim C10: if the member already holds the target role, `process_row`
marks the payment processed and issues no role mutation; re-running after a
successful grant therefore performs no further role call. -/
theorem process_row_already_has_role_no_grant (env : String → Option Nat)
    (g : StripeWh.Guild) (addF : Bool) (now : Int)
    (p : List MainPy.PaymentRow) (row : MainPy.PaymentRow) (role_id : Nat)
    (hrole : MainPy.role_id_for_tier env row.tier = some role_id)
    (hpres : g.present.contains (MainPy.strToNat row.discord_id) = true)
    (hrid : g.roleIds.contains role_id = true)
    (hhas : (g.rolesOf (MainPy.strToNat row.discord_id)).contains role_id = true) :
    MainPy.process_row env g true addF now p row
      = (MainPy.mark_processed p row.id now, g, []) := by
  have hpres' : MainPy.strToNat row.discord_id ∈ g.present := by simpa using hpres
  have hrid' : role_id ∈ g.roleIds := by simpa using hrid
  have hhas' : role_id ∈ g.rolesOf (MainPy.strToNat row.discord_id) := by simpa using hhas
  simp [MainPy.process_row, hrole, hpres', hrid', hhas']

/-- Concrete instance of the C10 theorem: member 5 already holds role 9, so
the elite payment is marked processed with zero role calls. -/
theorem process_row_already_has_role_no_grant_witness :
    MainPy.process_row (fun k => if k == "ROLE_ID_ELITE" then some 9 else none)
        ⟨[5], [9], [(5, [9])]⟩ true false 4
        [⟨1, "cs_1", "5", "elite", none, none, "paid", false, none, 0⟩]
        ⟨1, "cs_1", "5", "elite", none, none, "paid", false, none, 0⟩
      = (MainPy.mark_processed
          [⟨1, "cs_1", "5", "elite", none, none, "paid", false, none, 0⟩] 1 4,
         ⟨[5], [9], [(5, [9])]⟩, []) :=
  process_row_already_has_role_no_grant
    (fun k => if k == "ROLE_ID_ELITE" then some 9 else none)
    ⟨[5], [9], [(5, [9])]⟩ false 4
    [⟨1, "cs_1", "5", "elite", none, none, "paid", false, none, 0⟩]
    ⟨1, "cs_1", "5", "elite", none, none, "paid", false, none, 0⟩ 9
    (by decide) (by decide) (by decide) (by decide)

/-! ### Claim C1: duplicate event delivery -/

/-- Helper: a row returned by `fetch_unprocessed` is in the table and is
unprocessed. -/
theorem mem_fetch_unprocessed (p : List MainPy.PaymentRow) (n : Nat)
    (r : MainPy.PaymentRow) (h : r ∈ MainPy.fetch_unprocessed p n) :
    r ∈ p ∧ r.processed = false := by
  rw [MainPy.fetch_unprocessed] at h
  have h1 := List.take_subset _ _ h
  rw [List.mem_mergeSort] at h1
  have h2 := List.mem_filter.mp h1
  refine ⟨h2.1, ?_⟩
  have h3 := h2.2
  simp only [Bool.and_eq_true, Bool.not_eq_true'] at h3
  exact h3.1

/-- Helper: when some row for `sid` already exists and every such row is
processed, an insert (for any session) leaves every `sid` row processed. -/
theorem insert_paid_payment_keeps_processed (p : List MainPy.PaymentRow)
    (nid : Nat) (now : Int) (a b c : String) (d2 : Option Int)
    (cu : Option String) (f : String) (sid : String)
    (hdup : ∃ r ∈ p, r.session_id = sid)
    (hall : ∀ r ∈ p, r.session_id = sid → r.processed = true) :
    ∀ r ∈ MainPy.insert_paid_payment p nid now a b c d2 cu f,
      r.session_id = sid → r.processed = true := by
  intro r hr hsid
  rw [MainPy.insert_paid_payment] at hr
  by_cases hc : (p.any (fun rr => rr.session_id == a)) = true
  · rw [if_pos hc] at hr
    rcases List.mem_map.mp hr with ⟨r0, hr0, heq⟩
    by_cases hs : r0.session_id = a
    · rw [if_pos (by simp [hs])] at heq
      subst heq
      exact hall r0 hr0 hsid
    · rw [if_neg (by simp [hs])] at heq
      subst heq
      exact hall r0 hr0 hsid
  · rw [if_neg hc] at hr
    rcases List.mem_append.mp hr with hl | hr1
    · exact hall r hl hsid
    · have hre : r = ⟨nid, a, b, c, d2, cu, f, false, none, now⟩ := by
        simpa using hr1
      subst hre
      exfalso
      apply hc
      rcases hdup with ⟨r0, hr0, hs0⟩
      rw [List.any_eq_true]
      refine ⟨r0, hr0, ?_⟩
      have ha : a = sid := hsid
      simp [hs0, ha]

/-- Helper: the main.py webhook either leaves the payments table unchanged or
writes through `insert_paid_payment`. -/
theorem main_webhook_table_shape (whs sig : Bool) (e : MainPy.MainEvent)
    (nid : Nat) (now : Int) (p : List MainPy.PaymentRow) :
    (MainPy.main_stripe_webhook whs sig (some e) nid now p).2 = p ∨
    ∃ a b c d2 cu f, (MainPy.main_stripe_webhook whs sig (some e) nid now p).2
      = MainPy.insert_paid_payment p nid now a b c d2 cu f := by
  rw [MainPy.main_stripe_webhook]
  by_cases hw : whs
  · by_cases hsg : sig
    · simp only [hw, hsg, Bool.not_true, Bool.false_eq_true, if_false]
      by_cases ht : (e.type == "checkout.session.completed") = true
      · rw [if_pos ht]
        by_cases hf : (MainPy.falsy e.session_id || MainPy.falsy e.metadata_discord_id
            || MainPy.falsy e.metadata_tier) = true
        · rw [if_pos hf]
          exact Or.inl rfl
        · rw [if_neg hf]
          exact Or.inr ⟨_, _, _, _, _, _, rfl⟩
      · rw [if_neg ht]
        exact Or.inl rfl
    · have hsg' : sig = false := by simpa using hsg
      simp only [hw, hsg', Bool.not_true, Bool.not_false, Bool.false_eq_true,
        if_false, if_true]
      exact Or.inl (by trivial)
  · have hw' : whs = false := by simpa using hw
    simp only [hw', Bool.not_false, if_true]
    exact Or.inl (by trivial)

/-- Claim C1 (amended): the code has no event-id deduplication. In main.py the
only duplicate suppression is the payments table's `session_id` conflict
handling: a redelivery never resets `processed`, so once every row of a
session is processed, the handler's output still has them processed and
`fetch_unprocessed` never returns that session again — the worker issues no
second role grant. (stripe_webhook.py performs a second ledger mutation on a
duplicate; see the counterexample.) -/
theorem main_webhook_duplicate_never_regrants (whs sig : Bool)
    (e : MainPy.MainEvent) (nid : Nat) (now : Int) (p : List MainPy.PaymentRow)
    (sid : String)
    (hdup : ∃ r ∈ p, r.session_id = sid)
    (hall : ∀ r ∈ p, r.session_id = sid → r.processed = true) :
    (∀ r ∈ (MainPy.main_stripe_webhook whs sig (some e) nid now p).2,
      r.session_id = sid → r.processed = true) ∧
    (∀ r ∈ MainPy.fetch_unprocessed
        ((MainPy.main_stripe_webhook whs sig (some e) nid now p).2) 10,
      ¬ r.session_id = sid) := by
  have h1 : ∀ r ∈ (MainPy.main_stripe_webhook whs sig (some e) nid now p).2,
      r.session_id = sid → r.processed = true := by
    rcases main_webhook_table_shape whs sig e nid now p with hs1 | ⟨a, b, c, d2, cu, f, hs1⟩
    · rw [hs1]
      exact hall
    · rw [hs1]
      exact insert_paid_payment_keeps_processed p nid now a b c d2 cu f sid hdup hall
  refine ⟨h1, ?_⟩
  intro r hr hsid
  have hm := mem_fetch_unprocessed _ _ _ hr
  have hp1 := h1 r hm.1 hsid
  rw [hm.2] at hp1
  exact absurd hp1 (by simp)

/-- Concrete instance of the C1 amended theorem: redelivering session cs_1,
already recorded and processed, leaves its row processed. -/
theorem main_webhook_duplicate_never_regrants_witness :
    (⟨1, "cs_1", "5", "elite", none, none, "paid", true, some 3, 0⟩
      : MainPy.PaymentRow).processed = true :=
  (main_webhook_duplicate_never_regrants true true
    ⟨"checkout.session.completed", some "cs_1", some "paid", none, none,
      some "5", some "elite"⟩
    2 7 [⟨1, "cs_1", "5", "elite", none, none, "paid", true, some 3, 0⟩] "cs_1"
    ⟨⟨1, "cs_1", "5", "elite", none, none, "paid", true, some 3, 0⟩, by decide, rfl⟩
    (by
      intro r hr hs
      have : r = ⟨1, "cs_1", "5", "elite", none, none, "paid", true, some 3, 0⟩ := by
        simpa using hr
      rw [this])).1
    ⟨1, "cs_1", "5", "elite", none, none, "paid", true, some 3, 0⟩ (by decide) rfl

/-- Claim C1 counterexample: stripe_webhook.py has no event-id check at all.
Delivering the very same verified checkout event twice mutates the Ledger
both times: the first delivery stores expiry 14 for member 1 and the second
extends it to 28, so the duplicate delivery does not short-circuit and does
perform a Ledger mutation. -/
theorem stripe_webhook_duplicate_event_mutates_ledger_again :
    (StripeWh.stripe_webhook
        (.ok ⟨"checkout.session.completed", some 1, some "price_1T50gsB9kGqOyQaKqsChMsDT"⟩) 0
        ⟨[], ⟨[1], [StripeWh.ROLE_VERIFIED, StripeWh.ROLE_RECRUIT], [(1, [])]⟩⟩).state.ledger
      = [⟨1, "recruit", 14⟩] ∧
    (StripeWh.stripe_webhook
        (.ok ⟨"checkout.session.completed", some 1, some "price_1T50gsB9kGqOyQaKqsChMsDT"⟩) 0
        (StripeWh.stripe_webhook
          (.ok ⟨"checkout.session.completed", some 1, some "price_1T50gsB9kGqOyQaKqsChMsDT"⟩) 0
          ⟨[], ⟨[1], [StripeWh.ROLE_VERIFIED, StripeWh.ROLE_RECRUIT], [(1, [])]⟩⟩).state).state.ledger
      = [⟨1, "recruit", 28⟩] := by
  constructor
  · decide
  · decide

/-! ### Claim C3 (amended): per-member isolation in Tasks_runner's sweep -/

/-- Helper: `find?` keeps a hit found in the left part of an append. -/
theorem find?_append_left {α : Type} (p : α → Bool) (l l2 : List α) (a : α)
    (h : l.find? p = some a) : (l ++ l2).find? p = some a := by
  induction l with
  | nil => exact absurd h (by simp)
  | cons x l ih =>
    by_cases hx : p x
    · rw [List.find?_cons_of_pos _ hx] at h
      rw [List.cons_append, List.find?_cons_of_pos _ hx]
      exact h
    · rw [List.find?_cons_of_neg _ hx] at h
      rw [List.cons_append, List.find?_cons_of_neg _ hx]
      exact ih h

/-- Helper: a key-preserving map commutes with keyed `find?`. -/
theorem find?_map_key_preserving {β : Type} (l : List (Nat × β)) (j : Nat)
    (f : Nat × β → Nat × β) (hf : ∀ x, (f x).1 = x.1) :
    (l.map f).find? (fun pr => pr.1 == j)
      = (l.find? (fun pr => pr.1 == j)).map f := by
  induction l with
  | nil => rfl
  | cons x l ih =>
    by_cases hx : (x.1 == j) = true
    · have hx' : ((fun pr : Nat × β => pr.1 == j) (f x)) = true := by
        simpa [hf x] using hx
      rw [List.map_cons,
        List.find?_cons_of_pos (p := fun pr : Nat × β => pr.1 == j) _ hx',
        List.find?_cons_of_pos (p := fun pr : Nat × β => pr.1 == j) _ hx]
      rfl
    · have hx' : ¬ ((fun pr : Nat × β => pr.1 == j) (f x)) = true := by
        simpa [hf x] using hx
      rw [List.map_cons,
        List.find?_cons_of_neg (p := fun pr : Nat × β => pr.1 == j) _ hx',
        List.find?_cons_of_neg (p := fun pr : Nat × β => pr.1 == j) _ hx]
      exact ih

/-- Helper: updating key i does not change what key j (j distinct) finds. -/
theorem find?_updateAssoc_ne {β : Type} (l : List (Nat × β)) (i j : Nat) (b : β)
    (h : ¬ i = j) :
    (updateAssoc l i b).find? (fun pr => pr.1 == j)
      = l.find? (fun pr => pr.1 == j) := by
  rw [updateAssoc]
  by_cases hany : (l.any (fun pr => pr.1 == i)) = true
  · rw [if_pos hany,
      find?_map_key_preserving l j _
        (fun x => by by_cases hx : (x.1 == i) = true <;> simp [hx])]
    rcases hfind : l.find? (fun pr => pr.1 == j) with _ | x
    · rw [hfind]
      rfl
    · have hx1 : (x.1 == j) = true :=
        List.find?_some (p := fun pr : Nat × β => pr.1 == j) hfind
      have hxj : x.1 = j := by simpa using hx1
      have hxi : (x.1 == i) = false := by
        rw [hxj]
        simp
        exact fun hc => h hc.symm
      rw [hfind]
      simp only [Option.map_some']
      rw [if_neg (by simp [hxi])]
  · rw [if_neg hany]
    rcases hfind : l.find? (fun pr => pr.1 == j) with _ | x
    · rw [find?_append_of_none _ _ _ hfind]
      rw [List.find?_cons_of_neg (p := fun pr : Nat × β => pr.1 == j) _
        (by simpa using h)]
      rw [hfind]
      rfl
    · rw [hfind]
      exact find?_append_left _ _ _ _ hfind

/-- Helper: after updating key i, key i finds exactly the new value. -/
theorem find?_updateAssoc_self {β : Type} (l : List (Nat × β)) (i : Nat) (b : β) :
    (updateAssoc l i b).find? (fun pr => pr.1 == i) = some (i, b) := by
  rw [updateAssoc]
  by_cases hany : (l.any (fun pr => pr.1 == i)) = true
  · rw [if_pos hany,
      find?_map_key_preserving l i _
        (fun x => by by_cases hx : (x.1 == i) = true <;> simp [hx])]
    rcases hfind : l.find? (fun pr => pr.1 == i) with _ | x
    · exfalso
      rcases List.any_eq_true.mp hany with ⟨x, hx, hpx⟩
      exact (List.find?_eq_none.mp hfind x hx) hpx
    · have hx1 : (x.1 == i) = true :=
        List.find?_some (p := fun pr : Nat × β => pr.1 == i) hfind
      have hxi : x.1 = i := by simpa using hx1
      rw [hfind]
      simp [hx1, hxi]
  · rw [if_neg hany]
    have hnone : l.find? (fun pr => pr.1 == i) = none := by
      rw [List.find?_eq_none]
      intro x hx hpx
      exact (by simpa using hany : ¬ l.any (fun pr => pr.1 == i) = true)
        (List.any_eq_true.mpr ⟨x, hx, hpx⟩)
    rw [find?_append_of_none _ _ _ hnone]
    rw [List.find?_cons_of_pos (p := fun pr : Nat × β => pr.1 == i) _ (by simp)]

/-- Helper: setting member i's roles leaves member j's roles alone. -/
theorem nguild_rolesOf_setRoles_ne (g : TasksUp.NGuild) (i j : Nat)
    (rs : List String) (h : ¬ i = j) :
    (g.setRoles i rs).rolesOf j = g.rolesOf j := by
  simp only [TasksUp.NGuild.setRoles, TasksUp.NGuild.rolesOf]
  rw [find?_updateAssoc_ne _ _ _ _ h]

/-- Helper: member lookup after `set_tier` on the same member. -/
theorem lookupUser_set_tier_self (s : TasksUp.TState) (i : Nat) (t : String) :
    TasksUp.lookupUser (TasksUp.set_tier s i t).users i = some t := by
  simp only [TasksUp.set_tier, TasksUp.lookupUser]
  rw [find?_updateAssoc_self]
  rfl

/-- Helper: member lookup after `set_tier` on a different member. -/
theorem lookupUser_set_tier_ne (s : TasksUp.TState) (i j : Nat) (t : String)
    (h : ¬ i = j) :
    TasksUp.lookupUser (TasksUp.set_tier s i t).users j
      = TasksUp.lookupUser s.users j := by
  simp only [TasksUp.set_tier, TasksUp.lookupUser]
  rw [find?_updateAssoc_ne _ _ _ _ h]

/-- Helper: `apply_tier_roles` does not change who resolves in the guild. -/
theorem apply_tier_roles_present (g : TasksUp.NGuild) (i : Nat) (t : String) :
    (TasksUp.apply_tier_roles g i t).present = g.present := by
  simp only [TasksUp.apply_tier_roles]
  split <;> rfl

/-- Helper: `apply_tier_roles` on member i leaves member j's roles alone. -/
theorem apply_tier_roles_rolesOf_ne (g : TasksUp.NGuild) (i j : Nat) (t : String)
    (h : ¬ i = j) :
    (TasksUp.apply_tier_roles g i t).rolesOf j = g.rolesOf j := by
  simp only [TasksUp.apply_tier_roles]
  split
  · rw [nguild_rolesOf_setRoles_ne _ _ _ _ h, nguild_rolesOf_setRoles_ne _ _ _ _ h]
  · rw [nguild_rolesOf_setRoles_ne _ _ _ _ h]

/-- Helper: one sweep step never changes who resolves in the guild. -/
theorem sweepStep_present (fails : Nat → Bool) (now : Int) (s : TasksUp.TState)
    (q : TasksUp.SweepRow) :
    (TasksUp.sweepStep fails now s q).guild.present = s.guild.present := by
  rcases q with ⟨qid, qtier, qexp⟩
  cases qexp with
  | none => rfl
  | some exp =>
    simp only [TasksUp.sweepStep]
    by_cases h1 : ((!(s.guild.present.contains qid)) = true)
    · rw [if_pos h1]
    · rw [if_neg h1]
      by_cases h2 : (decide ((exp - now : Int) ≤ 0) = true)
      · rw [if_pos h2]
        by_cases h3 : (fails qid = true)
        · rw [if_pos h3]
          rfl
        · rw [if_neg h3]
          exact apply_tier_roles_present _ _ _
      · rw [if_neg h2]

/-- Helper: when member q's role call fails, the guild is untouched by its
step (only its tier rows were written before the raise). -/
theorem sweepStep_fails_guild (fails : Nat → Bool) (now : Int) (s : TasksUp.TState)
    (q : TasksUp.SweepRow) (h : fails q.discord_id = true) :
    (TasksUp.sweepStep fails now s q).guild = s.guild := by
  rcases q with ⟨qid, qtier, qexp⟩
  cases qexp with
  | none => rfl
  | some exp =>
    simp only [TasksUp.sweepStep]
    by_cases h1 : ((!(s.guild.present.contains qid)) = true)
    · rw [if_pos h1]
    · rw [if_neg h1]
      by_cases h2 : (decide ((exp - now : Int) ≤ 0) = true)
      · rw [if_pos h2, if_pos (by exact h)]
        rfl
      · rw [if_neg h2]

/-- Helper: member q's step does not change member j's users row (j distinct). -/
theorem sweepStep_users_ne (fails : Nat → Bool) (now : Int) (s : TasksUp.TState)
    (q : TasksUp.SweepRow) (j : Nat) (h : ¬ q.discord_id = j) :
    TasksUp.lookupUser (TasksUp.sweepStep fails now s q).users j
      = TasksUp.lookupUser s.users j := by
  rcases q with ⟨qid, qtier, qexp⟩
  cases qexp with
  | none => rfl
  | some exp =>
    simp only [TasksUp.sweepStep]
    by_cases h1 : ((!(s.guild.present.contains qid)) = true)
    · rw [if_pos h1]
    · rw [if_neg h1]
      by_cases h2 : (decide ((exp - now : Int) ≤ 0) = true)
      · rw [if_pos h2]
        by_cases h3 : (fails qid = true)
        · rw [if_pos h3]
          exact lookupUser_set_tier_ne _ _ _ _ h
        · rw [if_neg h3]
          exact lookupUser_set_tier_ne _ _ _ _ h
      · rw [if_neg h2]

/-- Helper: member q's step does not change member j's roles (j distinct). -/
theorem sweepStep_rolesOf_ne (fails : Nat → Bool) (now : Int) (s : TasksUp.TState)
    (q : TasksUp.SweepRow) (j : Nat) (h : ¬ q.discord_id = j) :
    (TasksUp.sweepStep fails now s q).guild.rolesOf j = s.guild.rolesOf j := by
  rcases q with ⟨qid, qtier, qexp⟩
  cases qexp with
  | none => rfl
  | some exp =>
    simp only [TasksUp.sweepStep]
    by_cases h1 : ((!(s.guild.present.contains qid)) = true)
    · rw [if_pos h1]
    · rw [if_neg h1]
      by_cases h2 : (decide ((exp - now : Int) ≤ 0) = true)
      · rw [if_pos h2]
        by_cases h3 : (fails qid = true)
        · rw [if_pos h3]
          rfl
        · rw [if_neg h3]
          exact apply_tier_roles_rolesOf_ne _ _ _ _ h
      · rw [if_neg h2]

/-- Helper: an expired, resolvable member's own step sets its users tier to
free whether or not its role call fails (`db.set_tier` runs first). -/
theorem sweepStep_self_free (fails : Nat → Bool) (now : Int) (s : TasksUp.TState)
    (q : TasksUp.SweepRow) (e : Int)
    (hexp : q.expires_at = some e) (hle : e - now ≤ 0)
    (hpres : s.guild.present.contains q.discord_id = true) :
    TasksUp.lookupUser (TasksUp.sweepStep fails now s q).users q.discord_id
      = some "free" := by
  rcases q with ⟨qid, qtier, qexp⟩
  have hexp' : qexp = some e := hexp
  subst hexp'
  have hpres' : s.guild.present.contains qid = true := hpres
  simp only [TasksUp.sweepStep]
  rw [if_neg (by rw [hpres']; simp)]
  rw [if_pos (by simpa using hle)]
  by_cases h3 : (fails qid = true)
  · rw [if_pos h3]
    exact lookupUser_set_tier_self s qid "free"
  · rw [if_neg h3]
    exact lookupUser_set_tier_self s qid "free"

/-- Helper: folding steps over rows that never mention member j leaves j's
users row alone. -/
theorem sweepGo_users_frame (fails : Nat → Bool) (now : Int)
    (rows : List TasksUp.SweepRow) (s : TasksUp.TState) (j : Nat)
    (h : ∀ q ∈ rows, ¬ q.discord_id = j) :
    TasksUp.lookupUser (rows.foldl (TasksUp.sweepStep fails now) s).users j
      = TasksUp.lookupUser s.users j := by
  induction rows generalizing s with
  | nil => rfl
  | cons q rest ih =>
    rw [List.foldl_cons]
    rw [ih _ (fun q2 hq2 => h q2 (List.mem_cons_of_mem _ hq2))]
    exact sweepStep_users_ne fails now s q j (h q (List.mem_cons_self _ _))

/-- Helper: with member j's role call failing, no step of the sweep changes
j's roles: its own step stops before the role mutation and other members'
steps only touch their own roles. -/
theorem sweepGo_rolesOf_fail_frame (fails : Nat → Bool) (now : Int)
    (rows : List TasksUp.SweepRow) (s : TasksUp.TState) (j : Nat)
    (hfl : fails j = true) :
    (rows.foldl (TasksUp.sweepStep fails now) s).guild.rolesOf j
      = s.guild.rolesOf j := by
  induction rows generalizing s with
  | nil => rfl
  | cons q rest ih =>
    rw [List.foldl_cons, ih]
    by_cases hq : q.discord_id = j
    · rw [sweepStep_fails_guild fails now s q (by rw [hq]; exact hfl)]
    · exact sweepStep_rolesOf_ne fails now s q j hq

/-- Helper: the sweep sets member j's tier to free when j's row is expired
and j resolves, regardless of every failure in the tick. -/
theorem sweepGo_sets_free (fails : Nat → Bool) (now : Int)
    (rows : List TasksUp.SweepRow) (s : TasksUp.TState) (j : Nat)
    (r : TasksUp.SweepRow) (e : Int)
    (hmem : r ∈ rows) (hid : r.discord_id = j)
    (hexp : r.expires_at = some e) (hle : e - now ≤ 0)
    (hnd : (rows.map (fun q => q.discord_id)).Nodup)
    (hpres : s.guild.present.contains j = true) :
    TasksUp.lookupUser (rows.foldl (TasksUp.sweepStep fails now) s).users j
      = some "free" := by
  induction rows generalizing s with
  | nil => exact absurd hmem (List.not_mem_nil r)
  | cons q rest ih =>
    rw [List.foldl_cons]
    have hnd' := hnd
    rw [List.map_cons, List.nodup_cons] at hnd'
    rcases List.mem_cons.mp hmem with hhead | htail
    · subst hhead
      rw [sweepGo_users_frame fails now rest _ j (fun q2 hq2 hq2j => by
        apply hnd'.1
        rw [hid, ← hq2j]
        exact List.mem_map_of_mem _ hq2)]
      rw [← hid] at hpres ⊢
      exact sweepStep_self_free fails now s r e hexp hle hpres
    · have hqj : ¬ q.discord_id = j := by
        intro hq
        apply hnd'.1
        rw [hq, ← hid]
        exact List.mem_map_of_mem _ htail
      refine ih _ htail hnd'.2 ?_
      rw [sweepStep_present]
      exact hpres

/-- Claim C3 (amended): Tasks_runner's `expiry_sweep` isolates per-member
failures: an expired, resolvable member j has its tier forced to free no
matter which members' role calls fail in the same tick (no failure aborts the
remaining members), and when j's own role call fails, j is skipped with its
roles untouched. In stripe_webhook.py's `expiration_loop`, by contrast, one
failure aborts the rest of the tick (see the C3 counterexample), and
tasks_runner.py's `sync_roles` has no per-member handler at all. -/
theorem expiry_sweep_isolates_member_failures (fails : Nat → Bool) (now : Int)
    (s : TasksUp.TState) (j : Nat) (r : TasksUp.SweepRow) (e : Int)
    (hmem : r ∈ TasksUp.get_expiring s.subs) (hid : r.discord_id = j)
    (hexp : r.expires_at = some e) (hle : e - now ≤ 0)
    (hnd : ((TasksUp.get_expiring s.subs).map (fun q => q.discord_id)).Nodup)
    (hpres : s.guild.present.contains j = true) :
    TasksUp.lookupUser (TasksUp.expiry_sweep fails now s).users j = some "free" ∧
    (fails j = true →
      (TasksUp.expiry_sweep fails now s).guild.rolesOf j = s.guild.rolesOf j) := by
  constructor
  · exact sweepGo_sets_free fails now _ s j r e hmem hid hexp hle hnd hpres
  · intro hfl
    exact sweepGo_rolesOf_fail_frame fails now _ s j hfl

/-- Concrete instance of the C3 amended theorem: member 8's role call fails,
member 9 is still processed in the same tick (tier forced to free). -/
theorem expiry_sweep_isolates_member_failures_witness :
    TasksUp.lookupUser
      (TasksUp.expiry_sweep (fun i => i == 8) 10
        ⟨[(8, "elite"), (9, "elite")],
         [⟨8, "elite", some 5⟩, ⟨9, "elite", some 5⟩],
         ⟨[8, 9], ["Member", "Premium Member", "PT"],
          [(8, ["PT"]), (9, ["PT"])]⟩⟩).users 9 = some "free" :=
  (expiry_sweep_isolates_member_failures (fun i => i == 8) 10
    ⟨[(8, "elite"), (9, "elite")],
     [⟨8, "elite", some 5⟩, ⟨9, "elite", some 5⟩],
     ⟨[8, 9], ["Member", "Premium Member", "PT"],
      [(8, ["PT"]), (9, ["PT"])]⟩⟩ 9 ⟨9, "elite", some 5⟩ 5
    (by decide) rfl rfl (by decide) (by decide) (by decide)).1

/-! ### Claim C5: state of expired members after a sync_roles tick -/

/-- Helper: setting member i's roles leaves member j's roles alone
(id-addressed guild). -/
theorem guild_rolesOf_setRoles_ne (g : StripeWh.Guild) (i j : Nat)
    (rs : List Nat) (h : ¬ i = j) :
    (g.setRoles i rs).rolesOf j = g.rolesOf j := by
  simp only [StripeWh.Guild.setRoles, StripeWh.Guild.rolesOf]
  rw [find?_updateAssoc_ne _ _ _ _ h]

/-- Helper: after setting member i's roles, member i holds exactly them. -/
theorem guild_rolesOf_setRoles_self (g : StripeWh.Guild) (i : Nat)
    (rs : List Nat) :
    (g.setRoles i rs).rolesOf i = rs := by
  simp only [StripeWh.Guild.setRoles, StripeWh.Guild.rolesOf]
  rw [find?_updateAssoc_self]

/-- Helper: filtering out every tier id leaves no tier id. -/
theorem not_mem_filter_tier (l tierIds : List Nat) (rid : Nat) (h : rid ∈ tierIds) :
    rid ∉ l.filter (fun x => !(tierIds.contains x)) := by
  intro hc
  have h2 := (List.mem_filter.mp hc).2
  simp at h2
  exact h2 h

/-- Helper: a completing sync step never changes who resolves or which roles
exist in the guild. -/
theorem syncStep_preserves (now : Int) (g g1 : StripeWh.Guild)
    (r : StripeWh.SubRow) (h : TaskSync.syncStep now g r = some g1) :
    g1.present = g.present ∧ g1.roleIds = g.roleIds := by
  simp only [TaskSync.syncStep] at h
  by_cases h1 : ((!(g.present.contains r.discord_id)) = true)
  · rw [if_pos h1] at h
    cases h
    exact ⟨rfl, rfl⟩
  · rw [if_neg h1] at h
    by_cases h2 : ((!((TaskSync.ROLE_MAP.map Prod.snd).all
        (fun rid => g.roleIds.contains rid))) = true)
    · rw [if_pos h2] at h
      exact absurd h (by simp)
    · rw [if_neg h2] at h
      by_cases h3 : (decide (r.expires_at < now) = true)
      · rw [if_pos h3] at h
        cases h
        exact ⟨rfl, rfl⟩
      · rw [if_neg h3] at h
        rcases hfind : TaskSync.ROLE_MAP.find? (fun pr => pr.1 == r.tier) with _ | pr
        · rw [hfind] at h
          exact absurd h (by simp)
        · rw [hfind] at h
          dsimp only at h
          by_cases h4 : ((!((g.rolesOf r.discord_id).contains
              TaskSync.ROLE_VERIFIED)) = true)
          · rw [if_pos h4] at h
            by_cases h5 : ((!(g.roleIds.contains TaskSync.ROLE_VERIFIED)) = true)
            · rw [if_pos h5] at h
              exact absurd h (by simp)
            · rw [if_neg h5] at h
              cases h
              exact ⟨rfl, rfl⟩
          · rw [if_neg h4] at h
            cases h
            exact ⟨rfl, rfl⟩

/-- Helper: a completing sync step for member r leaves every other member's
roles alone. -/
theorem syncStep_rolesOf_ne (now : Int) (g g1 : StripeWh.Guild)
    (r : StripeWh.SubRow) (j : Nat) (h : TaskSync.syncStep now g r = some g1)
    (hne : ¬ r.discord_id = j) :
    g1.rolesOf j = g.rolesOf j := by
  simp only [TaskSync.syncStep] at h
  by_cases h1 : ((!(g.present.contains r.discord_id)) = true)
  · rw [if_pos h1] at h
    cases h
    rfl
  · rw [if_neg h1] at h
    by_cases h2 : ((!((TaskSync.ROLE_MAP.map Prod.snd).all
        (fun rid => g.roleIds.contains rid))) = true)
    · rw [if_pos h2] at h
      exact absurd h (by simp)
    · rw [if_neg h2] at h
      by_cases h3 : (decide (r.expires_at < now) = true)
      · rw [if_pos h3] at h
        cases h
        exact guild_rolesOf_setRoles_ne _ _ _ _ hne
      · rw [if_neg h3] at h
        rcases hfind : TaskSync.ROLE_MAP.find? (fun pr => pr.1 == r.tier) with _ | pr
        · rw [hfind] at h
          exact absurd h (by simp)
        · rw [hfind] at h
          dsimp only at h
          by_cases h4 : ((!((g.rolesOf r.discord_id).contains
              TaskSync.ROLE_VERIFIED)) = true)
          · rw [if_pos h4] at h
            by_cases h5 : ((!(g.roleIds.contains TaskSync.ROLE_VERIFIED)) = true)
            · rw [if_pos h5] at h
              exact absurd h (by simp)
            · rw [if_neg h5] at h
              cases h
              rw [guild_rolesOf_setRoles_ne _ _ _ _ hne,
                guild_rolesOf_setRoles_ne _ _ _ _ hne,
                guild_rolesOf_setRoles_ne _ _ _ _ hne]
          · rw [if_neg h4] at h
            cases h
            rw [guild_rolesOf_setRoles_ne _ _ _ _ hne,
              guild_rolesOf_setRoles_ne _ _ _ _ hne]

/-- Helper: the sync step on a resolvable member whose row is strictly
expired removes all tier roles and adds nothing back. -/
theorem syncStep_self_expired (now : Int) (g : StripeWh.Guild)
    (r : StripeWh.SubRow)
    (hpres : g.present.contains r.discord_id = true)
    (hall : ((TaskSync.ROLE_MAP.map Prod.snd).all
      (fun rid => g.roleIds.contains rid)) = true)
    (hexp : r.expires_at < now) :
    TaskSync.syncStep now g r = some (g.setRoles r.discord_id
      ((g.rolesOf r.discord_id).filter
        (fun x => !((TaskSync.ROLE_MAP.map Prod.snd).contains x)))) := by
  simp only [TaskSync.syncStep]
  rw [if_neg (by rw [hpres]; simp)]
  rw [if_neg (by rw [hall]; simp)]
  rw [if_pos (by simpa using hexp)]

/-- Helper: a completing fold preserves `present`. -/
theorem syncGo_present (now : Int) (rows : List StripeWh.SubRow)
    (g g' : StripeWh.Guild) (h : TaskSync.syncGo now rows g = some g') :
    g'.present = g.present := by
  induction rows generalizing g with
  | nil =>
    cases h
    rfl
  | cons q rest ih =>
    rw [TaskSync.syncGo] at h
    rcases hstep : TaskSync.syncStep now g q with _ | g1
    · rw [hstep] at h
      exact absurd h (by simp)
    · rw [hstep] at h
      rw [ih g1 h, (syncStep_preserves now g g1 q hstep).1]

/-- Helper: a completing fold over rows that never mention member j leaves
j's roles alone. -/
theorem syncGo_rolesOf_frame (now : Int) (rows : List StripeWh.SubRow)
    (g g' : StripeWh.Guild) (j : Nat)
    (h : TaskSync.syncGo now rows g = some g')
    (hrows : ∀ q ∈ rows, ¬ q.discord_id = j) :
    g'.rolesOf j = g.rolesOf j := by
  induction rows generalizing g with
  | nil =>
    cases h
    rfl
  | cons q rest ih =>
    rw [TaskSync.syncGo] at h
    rcases hstep : TaskSync.syncStep now g q with _ | g1
    · rw [hstep] at h
      exact absurd h (by simp)
    · rw [hstep] at h
      rw [ih g1 h (fun q2 hq2 => hrows q2 (List.mem_cons_of_mem _ hq2))]
      exact syncStep_rolesOf_ne now g g1 q j hstep (hrows q (List.mem_cons_self _ _))

/-- Helper: after a completed fold, a resolvable member whose row is strictly
expired holds none of the configured tier roles. -/
theorem syncGo_expired_no_tier (now : Int) (rows : List StripeWh.SubRow)
    (g g' : StripeWh.Guild) (j : Nat) (r : StripeWh.SubRow)
    (hrun : TaskSync.syncGo now rows g = some g')
    (hmem : r ∈ rows) (hid : r.discord_id = j) (hexp : r.expires_at < now)
    (hnd : (rows.map (fun q => q.discord_id)).Nodup)
    (hpres : g.present.contains j = true) :
    ∀ rid ∈ TaskSync.ROLE_MAP.map Prod.snd, rid ∉ g'.rolesOf j := by
  induction rows generalizing g with
  | nil => exact absurd hmem (List.not_mem_nil r)
  | cons q rest ih =>
    rw [TaskSync.syncGo] at hrun
    rcases hstep : TaskSync.syncStep now g q with _ | g1
    · rw [hstep] at hrun
      exact absurd hrun (by simp)
    · rw [hstep] at hrun
      have hnd' := hnd
      rw [List.map_cons, List.nodup_cons] at hnd'
      rcases List.mem_cons.mp hmem with hhead | htail
      · subst hhead
        have hpres' : g.present.contains r.discord_id = true := by
          rw [hid]
          exact hpres
        by_cases hall2 : ((TaskSync.ROLE_MAP.map Prod.snd).all
            (fun rid => g.roleIds.contains rid)) = true
        · have hshape := syncStep_self_expired now g r hpres' hall2 hexp
          rw [hshape] at hstep
          cases hstep
          intro rid hrid
          rw [syncGo_rolesOf_frame now rest _ g' j hrun (fun q2 hq2 hq2j => by
            apply hnd'.1
            rw [hid, ← hq2j]
            exact List.mem_map_of_mem _ hq2)]
          rw [← hid]
          rw [guild_rolesOf_setRoles_self]
          exact not_mem_filter_tier _ _ _ hrid
        · exfalso
          have h2f : ((TaskSync.ROLE_MAP.map Prod.snd).all
              (fun rid => g.roleIds.contains rid)) = false := by
            simpa using hall2
          have hnone : TaskSync.syncStep now g r = none := by
            simp only [TaskSync.syncStep]
            rw [if_neg (by rw [hpres']; simp)]
            rw [if_pos (by rw [h2f]; simp)]
          rw [hnone] at hstep
          exact absurd hstep (by simp)
      · have hqj : ¬ q.discord_id = j := by
          intro hq
          apply hnd'.1
          rw [hq, ← hid]
          exact List.mem_map_of_mem _ htail
        refine ih _ hrun htail hnd'.2 ?_
        rw [(syncStep_preserves now g g1 q hstep).1]
        exact hpres

/-- Claim C5 (amended): after a `sync_roles` tick that completes, every
member that resolves in the guild and whose ledger row has
`expires_at < now` (strictly) holds none of the ROLE_MAP tier roles. The
boundary in `sync_roles` is strict — `expired = expires < now` — so a row
with `expires_at` exactly equal to `now` is treated as Active and granted its
tier role (see the counterexample); only `get_expired_subscriptions` uses the
inclusive `expires_at <= now` boundary. -/
theorem sync_roles_strict_expired_holds_no_tier_roles (now : Int)
    (l : StripeWh.Ledger) (g g' : StripeWh.Guild) (j : Nat) (r : StripeWh.SubRow)
    (hrun : TaskSync.sync_roles_tick now l g = some g')
    (hnd : (l.map (fun q => q.discord_id)).Nodup)
    (hmem : r ∈ l) (hid : r.discord_id = j) (hexp : r.expires_at < now)
    (hpres : g.present.contains j = true) :
    ∀ rid ∈ TaskSync.ROLE_MAP.map Prod.snd, rid ∉ g'.rolesOf j :=
  syncGo_expired_no_tier now l g g' j r hrun hmem hid hexp hnd hpres

/-- Concrete instance of the C5 amended theorem: member 7's row expired
strictly (5 < 10); after the tick it does not hold the elite tier role. -/
theorem sync_roles_strict_expired_holds_no_tier_roles_witness :
    (1475724667493810186 : Nat) ∉
      StripeWh.Guild.rolesOf
        ⟨[7],
         [1426996503880138815, 1475724667493810186, 1476504028576743520,
          1476479538807439404],
         [(7, [])]⟩ 7 :=
  sync_roles_strict_expired_holds_no_tier_roles 10 [⟨7, "elite", 5⟩]
    ⟨[7],
     [1426996503880138815, 1475724667493810186, 1476504028576743520,
      1476479538807439404],
     [(7, [1475724667493810186])]⟩
    ⟨[7],
     [1426996503880138815, 1475724667493810186, 1476504028576743520,
      1476479538807439404],
     [(7, [])]⟩ 7 ⟨7, "elite", 5⟩ (by decide) (by decide) (by decide) rfl
    (by decide) (by decide) 1475724667493810186 (by decide)

/-- Claim C5 counterexample: the claim's boundary is inclusive (`Expired`
means `now >= expires_at`), but `sync_roles` tests `expires < now` strictly.
With `expires_at` exactly equal to `now`, the tick completes and leaves the
member HOLDING its tier role (elite) plus the verified badge, refuting
"every member whose record has expires_at <= now holds none of the
configured tier roles". -/
theorem sync_roles_boundary_grants_role_at_now :
    TaskSync.sync_roles_tick 100 [⟨7, "elite", 100⟩]
        ⟨[7],
         [1426996503880138815, 1475724667493810186, 1476504028576743520,
          1476479538807439404],
         [(7, [])]⟩
      = some
        ⟨[7],
         [1426996503880138815, 1475724667493810186, 1476504028576743520,
          1476479538807439404],
         [(7, [1475724667493810186, 1476479538807439404])]⟩ := by
  decide
